import Mathlib

/-!
Shallow embedding of the v4l2-obs-plugin-axon capture core
(`src/plugin-main.cpp`) together with proofs checking the natural-language
specification against it.

Conventions of the embedding:
* machine addresses, lengths and byte values are `Nat`; a null pointer is `0`;
* the NV12→BGRA converter is modelled over plane-reading functions
  `Nat → Nat` (byte at a byte offset) and produces the list of bytes the C
  code writes, as `Int` values (the C code casts the clamped `int` channel
  values to `uint8_t`, which is lossless after the clamp);
* `>> 8` on a (possibly negative) `int` is arithmetic shift right, i.e.
  floor division by `256` (`Int.fdiv`), which is what gcc/clang implement;
* driver and ALSA interactions are an oracle `Env` giving the outcome of
  every external call, and every state-changing model step also returns the
  trace of device operations (`DevOp`) it issued.
-/

set_option maxHeartbeats 1000000

namespace Axon

/-! ## Frame Converter (plugin-main.cpp:165-205, `nv12_to_bgra`) -/

/-- Clamp an `int` channel value to `[0,255]` (plugin-main.cpp:186-197). -/
def clamp8 (x : Int) : Int :=
  if x < 0 then 0 else if x > 255 then 255 else x

/-- Arithmetic shift right by 8 bits: `>> 8` on an `int`
(floor division by 256). -/
def asr8 (x : Int) : Int :=
  Int.fdiv x 256

/-- One output pixel `[B, G, R, A]` of `nv12_to_bgra`
(plugin-main.cpp:173-202): luma byte at `j*y_stride + i`, interleaved
chroma pair at `(j/2)*uv_stride + (i/2)*2`, studio-range integer
transform with coefficients 298/409/516/100/208, bias `+128`,
arithmetic shift by 8, clamp to `[0,255]`, alpha `255`. -/
def bgra_pixel (yp uvp : Nat → Nat) (y_stride uv_stride j i : Nat) : List Int :=
  let y : Int := (yp (j * y_stride + i) : Int)
  let u : Int := (uvp ((j / 2) * uv_stride + (i / 2) * 2) : Int) - 128
  let v : Int := (uvp ((j / 2) * uv_stride + ((i / 2) * 2 + 1)) : Int) - 128
  let c : Int := y - 16
  let r := clamp8 (asr8 (298 * c + 409 * v + 128))
  let g := clamp8 (asr8 (298 * c - 100 * u - 208 * v + 128))
  let b := clamp8 (asr8 (298 * c + 516 * u + 128))
  [b, g, r, 255]

/-- The per-pixel 4-byte chunks of the output, row-major: row `j` from the
outer loop (plugin-main.cpp:168), column `i` from the inner loop
(plugin-main.cpp:173); chunk `j*width + i` starts at output byte
`j*width*4 + 4*i`, exactly the offset the C code writes to. -/
def nv12_chunks (yp uvp : Nat → Nat) (width height y_stride uv_stride : Nat) :
    List (List Int) :=
  (List.range height).flatMap
    (fun j => (List.range width).map (fun i => bgra_pixel yp uvp y_stride uv_stride j i))

/-- The byte sequence `nv12_to_bgra` writes into `dst`
(plugin-main.cpp:165-205). -/
def nv12_to_bgra (yp uvp : Nat → Nat) (width height y_stride uv_stride : Nat) :
    List Int :=
  (nv12_chunks yp uvp width height y_stride uv_stride).flatten

/-! ## Frame Exchange (plugin-main.cpp:659-664 and 691-697) -/

/-- The front/back RGB double buffer plus the `new_frame` dirty flag,
abstracted over the payload type of a converted frame. -/
structure Exchange (α : Type) where
  front : α
  back : α
  new_frame : Bool
  deriving DecidableEq

/-- Capture-path publish (plugin-main.cpp:656-664): the conversion writes
`payload` into the back buffer, then under `frame_lock` the front/back
pointers are swapped and `new_frame` is set. -/
def publish {α : Type} (e : Exchange α) (payload : α) : Exchange α :=
  { front := payload, back := e.front, new_frame := true }

/-- Render-path consume (plugin-main.cpp:691-697): under `frame_lock`, if
`new_frame` is set it is cleared and `true` is returned (the caller then
uploads the front buffer); otherwise `false`. -/
def consume {α : Type} (e : Exchange α) : Bool × Exchange α :=
  if e.new_frame then (true, { e with new_frame := false }) else (false, e)

/-- Result of the `(k+1)`-th consecutive `consume` after state `e`. -/
def consumeSeq {α : Type} (e : Exchange α) : Nat → Bool × Exchange α
  | 0 => consume e
  | k + 1 => consume (consumeSeq e k).2

/-! ## Buffer Pool and Session State (plugin-main.cpp:25-110, 31-71) -/

def BUFFER_COUNT : Nat := 4

/-- `VIDEO_MAX_PLANES` from `linux/videodev2.h`. -/
def VIDEO_MAX_PLANES : Nat := 8

/-- `struct buffer` (plugin-main.cpp:31-34): per-plane base address and
byte length, `VIDEO_MAX_PLANES` entries each; address `0` is NULL. -/
structure MBuffer where
  start : List Nat
  length : List Nat
  deriving DecidableEq

/-- An all-zero buffer slot (`memset` in `zero_buffers`). -/
def zeroBuf : MBuffer :=
  { start := List.replicate VIDEO_MAX_PLANES 0
    length := List.replicate VIDEO_MAX_PLANES 0 }

/-- Device / ALSA operations issued by the model, used as an observable
trace; `mmapOp` records the buffer index, plane, returned address
(0 = `MAP_FAILED`) and length. -/
inductive DevOp where
  | openDev
  | closeDev
  | alsaOpen
  | alsaSetParams
  | alsaPrepare
  | alsaStart
  | alsaDrop
  | alsaClose
  | sFmt
  | reqbufs
  | querybuf (i : Nat)
  | mmapOp (i p addr len : Nat)
  | munmapOp (addr len : Nat)
  | qbuf (i : Nat)
  | dqbuf
  | streamon
  | streamoff
  deriving DecidableEq, Repr

/-- The fields of `struct v4l2_mplane_source` (plugin-main.cpp:36-71) that
the modelled operations read or write. Handles are booleans
(`fd_open` for `fd >= 0`, `pcm_open` for `pcm_handle != NULL`,
`rgb_alloc`/`tex_alloc` for non-NULL `rgb_front`/`rgb_back`/`texture`). -/
structure DState where
  fd_open : Bool
  device_path : String
  width : Nat
  height : Nat
  y_stride : Nat
  uv_stride : Nat
  num_planes : Nat
  num_buffers : Nat
  buffers : List MBuffer
  tex_alloc : Bool
  rgb_alloc : Bool
  new_frame : Bool
  reconfiguring : Bool
  pcm_open : Bool
  audio_running : Bool
  deriving DecidableEq

/-- Session state as `mplane_create` initialises it before calling
`start_device` (plugin-main.cpp:497-532), with the default device path
and 640x480 default resolution. -/
def init_dstate : DState :=
  { fd_open := false
    device_path := "/dev/video11"
    width := 640
    height := 480
    y_stride := 0
    uv_stride := 0
    num_planes := 0
    num_buffers := 0
    buffers := List.replicate BUFFER_COUNT zeroBuf
    tex_alloc := false
    rgb_alloc := false
    new_frame := false
    reconfiguring := false
    pcm_open := false
    audio_running := false }

/-- The `(addr, len)` pairs one buffer slot contributes to
`free_mapped_buffers` (plugin-main.cpp:91-106): plane 0 is unmapped when
non-NULL with positive length; planes `1..VIDEO_MAX_PLANES` are unmapped
when non-NULL with positive length and *pointer-unequal* to the plane-0
base. -/
def buf_unmaps (b : MBuffer) : List (Nat × Nat) :=
  let m0 := b.start.getD 0 0
  let l0 := b.length.getD 0 0
  (if m0 ≠ 0 ∧ 0 < l0 then [(m0, l0)] else []) ++
    ((List.range VIDEO_MAX_PLANES).drop 1).filterMap (fun p =>
      let sp := b.start.getD p 0
      let lp := b.length.getD p 0
      if sp ≠ 0 ∧ 0 < lp ∧ sp ≠ m0 then some (sp, lp) else none)

/-- `zero_buffers` (plugin-main.cpp:73-76): `memset` of the whole fixed
`buffers[BUFFER_COUNT]` array. -/
def zero_buffers (s : DState) : DState :=
  { s with buffers := List.replicate BUFFER_COUNT zeroBuf }

/-- `free_mapped_buffers` (plugin-main.cpp:86-110): issue the unmaps for
the first `num_buffers` slots, then zero the buffer array and the count.
Returns the new state and the `(addr, len)` munmap calls issued. -/
def free_mapped_buffers (s : DState) : DState × List (Nat × Nat) :=
  ({ zero_buffers s with num_buffers := 0 },
    (s.buffers.take s.num_buffers).flatMap buf_unmaps)

/-- Set one plane's address and length in a buffer slot
(`s->buffers[i].start[p] = ...; s->buffers[i].length[p] = ...`). -/
def set_plane (b : MBuffer) (p addr len : Nat) : MBuffer :=
  { start := b.start.set p addr, length := b.length.set p len }

/-- Write back buffer slot `i`. -/
def set_buf (s : DState) (i : Nat) (b : MBuffer) : DState :=
  { s with buffers := s.buffers.set i b }

/-- Oracle for the outcomes of all external calls `start_device` makes:
`fmt_*` are the contents of the `v4l2_format` struct as observed after the
`VIDIOC_S_FMT` ioctl (the driver's authoritative answer; on a failed ioctl
they are simply the request the code filled in, with the other fields
still zero from `memset`), `mmap_result i p = 0` models `MAP_FAILED`. -/
structure Env where
  open_ok : Bool
  alsa_open_ok : Bool
  alsa_params_ok : Bool
  fmt_width : Nat
  fmt_height : Nat
  fmt_num_planes : Nat
  fmt_y_bpl : Nat
  fmt_uv_bpl : Nat
  reqbufs_ok : Bool
  req_count : Nat
  querybuf_ok : Nat → Bool
  plane_count : Nat → Nat
  mmap_result : Nat → Nat → Nat
  mmap_len : Nat → Nat → Nat
  qbuf_ok : Nat → Bool
  streamon_ok : Bool
  rgb_ok : Bool
  tex_ok : Bool

/-- Format negotiation (plugin-main.cpp:301-324): accept whatever the
driver reports; fall back to `num_planes = 1`, `y_stride = width`,
`uv_stride = y_stride` when the reported values are zero. -/
def negotiate (env : Env) (s : DState) : DState :=
  let w := env.fmt_width
  let np := if 0 < env.fmt_num_planes then env.fmt_num_planes else 1
  let ys := if 0 < env.fmt_y_bpl then env.fmt_y_bpl else w
  let us := if 2 ≤ np then (if 0 < env.fmt_uv_bpl then env.fmt_uv_bpl else ys) else ys
  { s with width := w, height := env.fmt_height, num_planes := np,
           y_stride := ys, uv_stride := us }

/-- The shared failure path of the buffer loop and streaming start
(plugin-main.cpp:361-364 etc.): `free_mapped_buffers(s); close(s->fd);
s->fd = -1; return false;`. Note it touches neither the ALSA handle nor
the audio thread. -/
def fail_cleanup (s : DState) (ops : List DevOp) : DState × List DevOp :=
  let fm := free_mapped_buffers s
  ({ fm.1 with fd_open := false },
    ops ++ fm.2.map (fun al => DevOp.munmapOp al.1 al.2) ++ [DevOp.closeDev])

/-- Single-plane layout fill (plugin-main.cpp:397-409): record the primary
mapping in plane 0, then — only if `y_bytes < plen` — derive the chroma
sub-pointer `base + y_bytes` with length `plen - y_bytes` in plane 1;
otherwise fail, the primary mapping already recorded (`.error`). -/
def single_plane_fill (addr plen y_bytes : Nat) : Except MBuffer MBuffer :=
  let b0 := set_plane zeroBuf 0 addr plen
  if plen ≤ y_bytes then Except.error b0
  else Except.ok (set_plane b0 1 (addr + y_bytes) (plen - y_bytes))

/-- Multi-plane mapping loop (plugin-main.cpp:371-385): map each of the
first `min planes_count VIDEO_MAX_PLANES` planes; on `MAP_FAILED` stop
with the planes recorded so far. -/
def map_planes (env : Env) (i pc : Nat) (b : MBuffer) (ops : List DevOp) :
    Except (MBuffer × List DevOp) (MBuffer × List DevOp) :=
  (List.range (min pc VIDEO_MAX_PLANES)).foldlM
    (fun acc p =>
      let addr := env.mmap_result i p
      let len := env.mmap_len i p
      let ops' := acc.2 ++ [DevOp.mmapOp i p addr len]
      if addr = 0 then Except.error (acc.1, ops')
      else Except.ok (set_plane acc.1 p addr len, ops'))
    (b, ops)

/-- Final step of one buffer iteration (plugin-main.cpp:412-428): queue
the buffer; on failure run the shared cleanup. -/
def qbuf_step (env : Env) (s : DState) (ops : List DevOp) (i : Nat) :
    Except (DState × List DevOp) (DState × List DevOp) :=
  let ops := ops ++ [DevOp.qbuf i]
  if env.qbuf_ok i then Except.ok (s, ops) else Except.error (fail_cleanup s ops)

/-- One iteration of the buffer setup loop (plugin-main.cpp:347-429):
`VIDIOC_QUERYBUF`, then either the multi-plane mapping path or the
single-plane path with the derived chroma sub-pointer, then
`VIDIOC_QBUF`. `Except.error` is the C `return false`. -/
def alloc_step (env : Env) (acc : DState × List DevOp) (i : Nat) :
    Except (DState × List DevOp) (DState × List DevOp) :=
  let s := acc.1
  let ops := acc.2 ++ [DevOp.querybuf i]
  if ¬ env.querybuf_ok i then Except.error (fail_cleanup s ops)
  else
    let pc := if env.plane_count i = 0 then 1 else env.plane_count i
    if 2 ≤ pc then
      match map_planes env i pc zeroBuf ops with
      | Except.error bo => Except.error (fail_cleanup (set_buf s i bo.1) bo.2)
      | Except.ok bo => qbuf_step env (set_buf s i bo.1) bo.2 i
    else
      let addr := env.mmap_result i 0
      let len := env.mmap_len i 0
      let ops := ops ++ [DevOp.mmapOp i 0 addr len]
      if addr = 0 then Except.error (fail_cleanup s ops)
      else
        match single_plane_fill addr len (s.y_stride * s.height) with
        | Except.error b => Except.error (fail_cleanup (set_buf s i b) ops)
        | Except.ok b => qbuf_step env (set_buf s i b) ops i

/-- `alloc_rgb_and_texture` (plugin-main.cpp:134-163): destroy the old RGB
buffers, allocate fresh ones, clear `new_frame`, recreate the texture;
on texture failure the RGB buffers are destroyed again. -/
def alloc_rgb_and_texture (env : Env) (s : DState) : Bool × DState :=
  let s := { s with rgb_alloc := false }
  if ¬ env.rgb_ok then (false, s)
  else
    let s := { s with rgb_alloc := true, new_frame := false, tex_alloc := false }
    if ¬ env.tex_ok then (false, { s with rgb_alloc := false })
    else (true, { s with tex_alloc := true })

/-- `start_device` from `VIDIOC_S_FMT` onwards (plugin-main.cpp:301-452):
negotiation, `VIDIOC_REQBUFS`, the buffer loop, `VIDIOC_STREAMON` and the
RGB/texture allocation, with the C early-return failure paths. -/
def start_device_video (env : Env) (s : DState) (ops : List DevOp) :
    Bool × DState × List DevOp :=
  let s := negotiate env s
  let ops := ops ++ [DevOp.sFmt, DevOp.reqbufs]
  if ¬ env.reqbufs_ok then (false, { s with fd_open := false }, ops ++ [DevOp.closeDev])
  else if env.req_count = 0 then (false, { s with fd_open := false }, ops ++ [DevOp.closeDev])
  else
    let s := zero_buffers { s with num_buffers := env.req_count }
    match (List.range env.req_count).foldlM (alloc_step env) (s, ops) with
    | Except.error so => (false, so.1, so.2)
    | Except.ok so =>
      let s := so.1
      let ops := so.2 ++ [DevOp.streamon]
      if ¬ env.streamon_ok then
        let fc := fail_cleanup s ops
        (false, fc.1, fc.2)
      else
        match alloc_rgb_and_texture env s with
        | (false, s) =>
          let fc := fail_cleanup s (ops ++ [DevOp.streamoff])
          (false, fc.1, fc.2)
        | (true, s) => (true, s, ops)

/-- `start_device` (plugin-main.cpp:268-452). The ALSA block
(plugin-main.cpp:279-299): an open failure is soft (`pcm_handle = NULL`,
video continues); a `snd_pcm_set_params` failure is `return false` with
no cleanup of the open fd or the ALSA handle; on success the audio thread
is started (`audio_running = true`). -/
def start_device (env : Env) (s : DState) : Bool × DState × List DevOp :=
  let ops := [DevOp.openDev]
  if ¬ env.open_ok then (false, s, ops)
  else
    let s := { s with fd_open := true, pcm_open := false, audio_running := false }
    if ¬ env.alsa_open_ok then
      start_device_video env s (ops ++ [DevOp.alsaOpen])
    else
      let s := { s with pcm_open := true }
      let ops := ops ++ [DevOp.alsaOpen, DevOp.alsaSetParams]
      if ¬ env.alsa_params_ok then (false, s, ops)
      else
        start_device_video env { s with audio_running := true }
          (ops ++ [DevOp.alsaPrepare, DevOp.alsaStart])

/-- `stop_device` (plugin-main.cpp:454-477): stop/join the audio thread,
drop and close the ALSA handle, `VIDIOC_STREAMOFF`, free the mapped
buffers, close the fd. -/
def stop_device (s : DState) : DState × List DevOp :=
  let s := if s.audio_running then { s with audio_running := false } else s
  let aops := if s.pcm_open then [DevOp.alsaDrop, DevOp.alsaClose] else []
  let s := { s with pcm_open := false }
  let sops := if s.fd_open then [DevOp.streamoff] else []
  let fm := free_mapped_buffers s
  let s := fm.1
  let cops := if s.fd_open then [DevOp.closeDev] else []
  ({ s with fd_open := false },
    aops ++ sops ++ fm.2.map (fun al => DevOp.munmapOp al.1 al.2) ++ cops)

/-- Resolution-string parsing of `mplane_update` (plugin-main.cpp:555-570):
an unrecognised string keeps the current dimensions. -/
def parse_res_update (res : String) (w h : Nat) : Nat × Nat :=
  if res = "1920x1080" then (1920, 1080)
  else if res = "1280x720" then (1280, 720)
  else if res = "640x480" then (640, 480)
  else (w, h)

/-- `mplane_update` (plugin-main.cpp:546-612): compute the requested
device path and dimensions; if neither changed, log and return without
touching anything; otherwise set the reconfiguring fence, stop the
device, destroy texture and RGB buffers, store the new parameters,
restart, and clear the front buffer on success. -/
def mplane_update (env : Env) (s : DState) (dev res : String) :
    DState × List DevOp :=
  let wh := parse_res_update res s.width s.height
  let dev_safe := if dev = "" then "/dev/video11" else dev
  if s.device_path = dev_safe ∧ wh.1 = s.width ∧ wh.2 = s.height then (s, [])
  else
    let s := { s with reconfiguring := true }
    let st := stop_device s
    let s := { st.1 with tex_alloc := false, rgb_alloc := false,
                         device_path := dev_safe, width := wh.1, height := wh.2 }
    let r := start_device env s
    let s := if r.1 ∧ r.2.1.rgb_alloc then { r.2.1 with new_frame := false } else r.2.1
    ({ s with reconfiguring := false }, st.2 ++ r.2.2)

/-- Oracle for one invocation of `mplane_tick`: whether `VIDIOC_DQBUF`
succeeds, the buffer index it reports, and whether the requeue
`VIDIOC_QBUF` succeeds. -/
structure TickEnv where
  dqbuf_ok : Bool
  dq_index : Nat
  qbuf_ok : Bool

/-- `mplane_tick` (plugin-main.cpp:614-683): skip when reconfiguring or
the fd is closed; non-blocking dequeue (failure returns); for a valid
index resolve the plane pointers and on success publish (`new_frame`);
then unconditionally requeue the dequeued index — a requeue failure is
only logged. -/
def mplane_tick (te : TickEnv) (s : DState) : DState × List DevOp :=
  if s.reconfiguring then (s, [])
  else if ¬ s.fd_open then (s, [])
  else if ¬ te.dqbuf_ok then (s, [DevOp.dqbuf])
  else
    let idx := te.dq_index
    let s :=
      if idx < s.num_buffers then
        let b := s.buffers.getD idx zeroBuf
        let y0 := b.start.getD 0 0
        let uv :=
          if b.start.getD 1 0 ≠ 0 then b.start.getD 1 0
          else if y0 ≠ 0 then y0 + s.y_stride * s.height else 0
        if y0 ≠ 0 ∧ uv ≠ 0 ∧ s.rgb_alloc then { s with new_frame := true } else s
      else s
    (s, [DevOp.dqbuf, DevOp.qbuf idx])

/-- Is a trace entry a `VIDIOC_QBUF` call? -/
def isQbufOp : DevOp → Bool
  | DevOp.qbuf _ => true
  | _ => false

/-- The multiset of still-live memory mappings after a trace: `mmap`
results (non-`MAP_FAILED`) are added, each `munmap` removes one exactly
matching `(addr, len)` region. -/
def liveMappings (ops : List DevOp) : List (Nat × Nat) :=
  ops.foldl
    (fun acc op =>
      match op with
      | DevOp.mmapOp _ _ addr len => if addr ≠ 0 then (addr, len) :: acc else acc
      | DevOp.munmapOp addr len => acc.erase (addr, len)
      | _ => acc)
    []

/-! ## Audio Capture Thread (plugin-main.cpp:207-266) -/

def AUDIO_SAMPLE_RATE : Nat := 48000

/-- The two function-`static` variables of `audio_thread_fn`
(plugin-main.cpp:249-250): process-wide state, zero-initialised once at
load, *not* reset when a session stops and a new one starts. -/
structure AudioStatics where
  audio_start_ts : Nat
  audio_frame_count : Nat
  deriving DecidableEq

/-- One successful `snd_pcm_readi` iteration (plugin-main.cpp:249-257):
establish `audio_start_ts` from the monotonic clock if it is still zero,
emit `audio_start_ts + audio_frame_count * 1e9 / 48000`, then add the
frames just read to the counter. `now` is the `os_gettime_ns()` value. -/
def audio_emit (st : AudioStatics) (now frames : Nat) : Nat × AudioStatics :=
  let start := if st.audio_start_ts = 0 then now else st.audio_start_ts
  (start + st.audio_frame_count * 1000000000 / AUDIO_SAMPLE_RATE,
    { audio_start_ts := start, audio_frame_count := st.audio_frame_count + frames })

/-- Timestamps emitted for a sequence of successful reads, each given as
`(clock value at the read, frames read)`. -/
def audio_run (st : AudioStatics) : List (Nat × Nat) → List Nat × AudioStatics
  | [] => ([], st)
  | r :: rs =>
    let e := audio_emit st r.1 r.2
    let rest := audio_run e.2 rs
    (e.1 :: rest.1, rest.2)

/-- A concrete driver environment in which every video-side call succeeds
(two planes per buffer, addresses `1000 + 100*i + 10*p`), used to vary a
single failing step at a time. -/
def env_base : Env :=
  { open_ok := true
    alsa_open_ok := true
    alsa_params_ok := true
    fmt_width := 640
    fmt_height := 480
    fmt_num_planes := 2
    fmt_y_bpl := 640
    fmt_uv_bpl := 640
    reqbufs_ok := true
    req_count := 4
    querybuf_ok := fun _ => true
    plane_count := fun _ => 2
    mmap_result := fun i p => 1000 + 100 * i + 10 * p
    mmap_len := fun _ _ => 64
    qbuf_ok := fun _ => true
    streamon_ok := true
    rgb_ok := true
    tex_ok := true }

/-- The buffer slot produced by the single-plane fill with mapping base
4096, mapped length 6400 and `y_bytes = 3840`:
`start = [4096, 7936, 0, ...]`, `length = [6400, 2560, 0, ...]`. -/
def c4buf : MBuffer :=
  (single_plane_fill 4096 6400 3840).toOption.getD zeroBuf

/-- A pool holding exactly that single-plane buffer. -/
def c4pool : DState :=
  { init_dstate with num_buffers := 1, buffers := [c4buf, zeroBuf, zeroBuf, zeroBuf] }

/-- A driver environment whose buffers are single-plane, negotiated to
10x10 with stride 10 (`y_bytes = 100`), each mapping 100 bytes long at
address `5000 + i` — so the NV12 split check fails on buffer 0. -/
def env_single : Env :=
  { env_base with
      alsa_open_ok := false
      plane_count := fun _ => 1
      fmt_width := 10
      fmt_height := 10
      fmt_y_bpl := 10
      fmt_uv_bpl := 0
      fmt_num_planes := 1
      mmap_result := fun i _ => 5000 + i
      mmap_len := fun _ _ => 100
      req_count := 2 }

/-- Like `env_single` but with one 150-byte buffer, so the split
succeeds: chroma pointer `5000 + 100`, chroma length `50`. -/
def env_single_ok : Env :=
  { env_single with mmap_len := fun _ _ => 150, req_count := 1 }

/-! ## Helper lemmas -/

theorem clamp8_nonneg (x : Int) : 0 ≤ clamp8 x := by
  unfold clamp8; split_ifs <;> omega

theorem clamp8_le (x : Int) : clamp8 x ≤ 255 := by
  unfold clamp8; split_ifs <;> omega

theorem bgra_pixel_length (yp uvp : Nat → Nat) (ys us j i : Nat) :
    (bgra_pixel yp uvp ys us j i).length = 4 := rfl

theorem bgra_pixel_white (yp uvp : Nat → Nat) (ys us j i : Nat)
    (hy : ∀ n, yp n = 235) (huv : ∀ n, uvp n = 128) :
    bgra_pixel yp uvp ys us j i = [255, 255, 255, 255] := by
  simp only [bgra_pixel, hy, huv]
  decide

theorem bgra_pixel_black (yp uvp : Nat → Nat) (ys us j i : Nat)
    (hy : ∀ n, yp n = 16) (huv : ∀ n, uvp n = 128) :
    bgra_pixel yp uvp ys us j i = [0, 0, 0, 255] := by
  simp only [bgra_pixel, hy, huv]
  decide

theorem mem_bgra_pixel_bounds (yp uvp : Nat → Nat) (ys us j i : Nat) (b : Int)
    (hb : b ∈ bgra_pixel yp uvp ys us j i) : 0 ≤ b ∧ b ≤ 255 := by
  simp only [bgra_pixel, List.mem_cons, List.not_mem_nil, or_false] at hb
  rcases hb with h | h | h | h <;> subst h <;>
    first
      | exact ⟨clamp8_nonneg _, clamp8_le _⟩
      | exact ⟨by norm_num, by norm_num⟩

theorem nv12_chunks_length (yp uvp : Nat → Nat) (w h ys us : Nat) :
    (nv12_chunks yp uvp w h ys us).length = h * w := by
  unfold nv12_chunks
  induction h with
  | zero => simp
  | succ n ih =>
    rw [List.range_succ, List.flatMap_append]
    simp [ih, Nat.succ_mul]

theorem mem_nv12_chunks (yp uvp : Nat → Nat) (w h ys us : Nat) (c : List Int)
    (hc : c ∈ nv12_chunks yp uvp w h ys us) :
    ∃ j i, j < h ∧ i < w ∧ c = bgra_pixel yp uvp ys us j i := by
  simp only [nv12_chunks, List.mem_flatMap, List.mem_map, List.mem_range] at hc
  obtain ⟨j, hj, i, hi, rfl⟩ := hc
  exact ⟨j, i, hj, hi, rfl⟩

theorem nv12_chunks_get (yp uvp : Nat → Nat) (w h ys us j i : Nat)
    (hj : j < h) (hi : i < w) :
    (nv12_chunks yp uvp w h ys us).get? (j * w + i)
      = some (bgra_pixel yp uvp ys us j i) := by
  unfold nv12_chunks
  induction h with
  | zero => omega
  | succ n ih =>
    rw [List.range_succ, List.flatMap_append]
    rcases Nat.lt_or_ge j n with h' | h'
    · have hlen :
          j * w + i <
            ((List.range n).flatMap
              (fun j => (List.range w).map (fun i => bgra_pixel yp uvp ys us j i))).length := by
        have := nv12_chunks_length yp uvp w n ys us
        unfold nv12_chunks at this
        rw [this]
        have h1 : j * w + i < (j + 1) * w := by
          rw [Nat.succ_mul]; omega
        have h2 : (j + 1) * w ≤ n * w := Nat.mul_le_mul_right w h'
        omega
      rw [List.get?_append hlen]
      exact ih h'
    · have hj' : j = n := by omega
      subst hj'
      have hlen :
          ((List.range j).flatMap
            (fun j => (List.range w).map (fun i => bgra_pixel yp uvp ys us j i))).length
            = j * w := by
        have := nv12_chunks_length yp uvp w j ys us
        unfold nv12_chunks at this
        exact this
      rw [List.get?_append_right (by omega), hlen]
      have hidx : j * w + i - j * w = i := by omega
      rw [List.flatMap_singleton, hidx, List.get?_map, List.get?_range hi]
      rfl

theorem flatten_chunks_get {α : Type} (l : List (List α))
    (hl : ∀ c ∈ l, c.length = 4) (k c0 : Nat) (hc : c0 < 4) :
    l.flatten.get? (4 * k + c0) = (l.get? k).bind (fun c => c.get? c0) := by
  induction l generalizing k with
  | nil => simp
  | cons c rest ih =>
    have hc4 : c.length = 4 := hl c (List.mem_cons_self c rest)
    rw [List.flatten_cons]
    cases k with
    | zero =>
      rw [List.get?_append (by omega)]
      simp
    | succ k' =>
      rw [List.get?_append_right (by omega)]
      have hidx : 4 * (k' + 1) + c0 - c.length = 4 * k' + c0 := by omega
      rw [hidx]
      exact ih (fun d hd => hl d (List.mem_cons_of_mem c hd)) k'

theorem flatten_chunks_length {α : Type} (l : List (List α))
    (hl : ∀ c ∈ l, c.length = 4) : l.flatten.length = 4 * l.length := by
  induction l with
  | nil => rfl
  | cons c rest ih =>
    rw [List.flatten_cons, List.length_append, List.length_cons,
      hl c (List.mem_cons_self c rest),
      ih (fun d hd => hl d (List.mem_cons_of_mem c hd))]
    omega

theorem nv12_chunk_len (yp uvp : Nat → Nat) (w h ys us : Nat) :
    ∀ c ∈ nv12_chunks yp uvp w h ys us, c.length = 4 := by
  intro c hc
  obtain ⟨j, i, _, _, rfl⟩ := mem_nv12_chunks yp uvp w h ys us c hc
  rfl

/-! ## Claim theorems -/

/-- C1: for every pixel, the frame converter computes the studio-range
YUV→RGB transform with integer coefficients 298/409/516/100/208, rounding
bias +128, arithmetic right-shift by 8 (the per-pixel bytes at output
offset `4*(j*w+i)` are exactly `bgra_pixel`, which is that transform) and
clamps each channel to `[0,255]`; for a frame with all luma 235 and all
chroma 128 every output byte (hence every R, G, B and A channel) is 255,
and for all luma 16 with chroma 128 every output pixel has R=G=B=0 (and
alpha 255). -/
theorem converter_studio_range_flat (w h ys us j i : Nat)
    (hj : j < h) (hi : i < w) :
    (∀ yp uvp : Nat → Nat, ∀ b ∈ nv12_to_bgra yp uvp w h ys us, 0 ≤ b ∧ b ≤ 255) ∧
    (∀ yp uvp : Nat → Nat, ∀ c0, c0 < 4 →
      (nv12_to_bgra yp uvp w h ys us).get? (4 * (j * w + i) + c0)
        = (bgra_pixel yp uvp ys us j i).get? c0) ∧
    (∀ b ∈ nv12_to_bgra (fun _ => 235) (fun _ => 128) w h ys us, b = 255) ∧
    ((nv12_to_bgra (fun _ => 16) (fun _ => 128) w h ys us).get? (4 * (j * w + i) + 0)
        = some 0 ∧
      (nv12_to_bgra (fun _ => 16) (fun _ => 128) w h ys us).get? (4 * (j * w + i) + 1)
        = some 0 ∧
      (nv12_to_bgra (fun _ => 16) (fun _ => 128) w h ys us).get? (4 * (j * w + i) + 2)
        = some 0 ∧
      (nv12_to_bgra (fun _ => 16) (fun _ => 128) w h ys us).get? (4 * (j * w + i) + 3)
        = some 255) := by
  have hgen : ∀ yp uvp : Nat → Nat, ∀ c0, c0 < 4 →
      (nv12_to_bgra yp uvp w h ys us).get? (4 * (j * w + i) + c0)
        = (bgra_pixel yp uvp ys us j i).get? c0 := by
    intro yp uvp c0 hc0
    unfold nv12_to_bgra
    rw [flatten_chunks_get _ (nv12_chunk_len yp uvp w h ys us) _ _ hc0,
      nv12_chunks_get yp uvp w h ys us j i hj hi]
    rfl
  refine ⟨?_, hgen, ?_, ?_⟩
  · intro yp uvp b hb
    obtain ⟨c, hc, hbc⟩ := List.mem_flatten.mp hb
    obtain ⟨j', i', _, _, rfl⟩ := mem_nv12_chunks yp uvp w h ys us c hc
    exact mem_bgra_pixel_bounds yp uvp ys us j' i' b hbc
  · intro b hb
    obtain ⟨c, hc, hbc⟩ := List.mem_flatten.mp hb
    obtain ⟨j', i', _, _, rfl⟩ := mem_nv12_chunks _ _ w h ys us c hc
    rw [bgra_pixel_white _ _ ys us j' i' (fun _ => rfl) (fun _ => rfl)] at hbc
    simp only [List.mem_cons, List.not_mem_nil, or_false] at hbc
    rcases hbc with h | h | h | h <;> exact h
  · have hblack := bgra_pixel_black (fun _ => 16) (fun _ => 128) ys us j i
      (fun _ => rfl) (fun _ => rfl)
    refine ⟨?_, ?_, ?_, ?_⟩ <;>
      rw [hgen _ _ _ (by omega), hblack] <;> rfl

/-- C1 witness: the theorem instantiated at a 2x2 frame, pixel (1,1). -/
theorem converter_studio_range_flat_witness :
    (nv12_to_bgra (fun _ => 16) (fun _ => 128) 2 2 2 2).get? (4 * (1 * 2 + 1) + 3)
        = some 255 ∧
    (nv12_to_bgra (fun _ => 16) (fun _ => 128) 2 2 2 2).get? (4 * (1 * 2 + 1) + 2)
        = some 0 := by
  have h := converter_studio_range_flat 2 2 2 2 1 1 (by decide) (by decide)
  exact ⟨h.2.2.2.2.2.2, h.2.2.2.2.2.1⟩

/-- C10: for even width and height the converter writes exactly
`width*height*4` bytes, and the byte at every offset `4*k+3` (the alpha
channel of pixel `k`) is 255. -/
theorem converter_output_size_alpha (yp uvp : Nat → Nat) (w h ys us : Nat)
    (hw : w % 2 = 0) (hh : h % 2 = 0) :
    (nv12_to_bgra yp uvp w h ys us).length = w * h * 4 ∧
    ∀ k, 4 * k + 3 < (nv12_to_bgra yp uvp w h ys us).length →
      (nv12_to_bgra yp uvp w h ys us).get? (4 * k + 3) = some 255 := by
  have hlen : (nv12_to_bgra yp uvp w h ys us).length = 4 * (h * w) := by
    unfold nv12_to_bgra
    rw [flatten_chunks_length _ (nv12_chunk_len yp uvp w h ys us),
      nv12_chunks_length]
  constructor
  · rw [hlen]; ring
  · intro k hk
    rw [hlen] at hk
    have hk' : k < (nv12_chunks yp uvp w h ys us).length := by
      rw [nv12_chunks_length]; omega
    unfold nv12_to_bgra
    rw [flatten_chunks_get _ (nv12_chunk_len yp uvp w h ys us) k 3 (by omega)]
    rw [List.get?_eq_get hk']
    have hmem := List.get_mem (nv12_chunks yp uvp w h ys us) k hk'
    obtain ⟨j', i', _, _, hc⟩ := mem_nv12_chunks yp uvp w h ys us _ hmem
    rw [hc]
    rfl

/-- C10 witness: a concrete 2x2 frame. -/
theorem converter_output_size_alpha_witness :
    (nv12_to_bgra (fun _ => 7) (fun _ => 9) 2 2 2 2).length = 2 * 2 * 4 ∧
    (nv12_to_bgra (fun _ => 7) (fun _ => 9) 2 2 2 2).get? (4 * 0 + 3) = some 255 := by
  have h := converter_output_size_alpha (fun _ => 7) (fun _ => 9) 2 2 2 2 rfl rfl
  exact ⟨h.1, h.2 0 (by rw [h.1]; decide)⟩

/-- After any `consume` the dirty flag is clear. -/
theorem consume_clears_flag {α : Type} (e : Exchange α) :
    (consume e).2.new_frame = false := by
  unfold consume
  by_cases h : e.new_frame = true <;> simp [h]

/-- A `consume` on a clean state returns false and changes nothing. -/
theorem consume_clean {α : Type} (e : Exchange α) (h : e.new_frame = false) :
    consume e = (false, e) := by
  unfold consume
  simp [h]

/-- C2: after `N = qs.length + 1 ≥ 1` publish operations with payloads
`qs ++ [p]` and no intervening consume, the first subsequent consume
observes the dirty flag true with the front buffer holding the last
payload `p`, and every further consume before the next publish returns
false. -/
theorem frame_exchange_last_publish_wins {α : Type} (e : Exchange α)
    (qs : List α) (p : α) :
    (consumeSeq ((qs ++ [p]).foldl publish e) 0).1 = true ∧
    ((qs ++ [p]).foldl publish e).front = p ∧
    ∀ k, 1 ≤ k → (consumeSeq ((qs ++ [p]).foldl publish e) k).1 = false := by
  have hfold : (qs ++ [p]).foldl publish e
      = { front := p, back := (qs.foldl publish e).front, new_frame := true } := by
    rw [List.foldl_append]
    rfl
  have hflag : ∀ k, (consumeSeq ((qs ++ [p]).foldl publish e) k).2.new_frame = false := by
    intro k
    cases k with
    | zero => exact consume_clears_flag _
    | succ k' => exact consume_clears_flag _
  refine ⟨?_, ?_, ?_⟩
  · rw [hfold]
    rfl
  · rw [hfold]
  · intro k hk
    cases k with
    | zero => omega
    | succ k' =>
      show (consume (consumeSeq ((qs ++ [p]).foldl publish e) k').2).1 = false
      rw [consume_clean _ (hflag k')]

/-- C2 witness: two publishes (payloads 1 then 2) into an initially clean
exchange; the first consume succeeds on payload 2, the second returns
false. -/
theorem frame_exchange_last_publish_wins_witness :
    (consumeSeq ((([1] : List Nat) ++ [2]).foldl publish ⟨0, 0, false⟩) 0).1 = true ∧
    ((([1] : List Nat) ++ [2]).foldl publish ⟨0, 0, false⟩).front = 2 ∧
    (consumeSeq ((([1] : List Nat) ++ [2]).foldl publish ⟨0, 0, false⟩) 1).1 = false := by
  have h := frame_exchange_last_publish_wins (⟨0, 0, false⟩ : Exchange Nat) [1] 2
  exact ⟨h.1, h.2.1, h.2.2 1 (by decide)⟩

/-- C8: calling the pool release twice in a row is idempotent: the first
call zeroes every tracked plane pointer and length and sets the buffer
count to zero, and the second call issues no unmap and leaves the state
unchanged, so the pair of calls unmaps nothing beyond the first call. -/
theorem release_twice_idempotent (s : DState) :
    (free_mapped_buffers (free_mapped_buffers s).1).2 = [] ∧
    (free_mapped_buffers s).1.buffers = List.replicate BUFFER_COUNT zeroBuf ∧
    (free_mapped_buffers s).1.num_buffers = 0 ∧
    (free_mapped_buffers (free_mapped_buffers s).1).1 = (free_mapped_buffers s).1 := by
  refine ⟨rfl, rfl, rfl, rfl⟩

/-- C6: whenever the periodic step dequeues a buffer successfully (fence
down, fd open, `VIDIOC_DQBUF` succeeded), the trace contains exactly one
requeue `VIDIOC_QBUF`, and it carries the dequeued index — whether or not
the index was in `[0, num_buffers)` and whether or not conversion ran;
and the outcome of the step does not depend on whether that requeue
succeeds (a failure is only logged). -/
theorem tick_requeues_exactly_once (te : TickEnv) (s : DState)
    (hr : s.reconfiguring = false) (hf : s.fd_open = true)
    (hd : te.dqbuf_ok = true) :
    (mplane_tick te s).2.filter isQbufOp = [DevOp.qbuf te.dq_index] ∧
    (mplane_tick { te with qbuf_ok := false } s).1
      = (mplane_tick { te with qbuf_ok := true } s).1 := by
  constructor
  · unfold mplane_tick
    simp only [hr, hf, hd]
    simp [isQbufOp]
  · rfl

/-- C6 witness: a session with 4 buffers and an out-of-range index 99
still requeues index 99 exactly once. -/
theorem tick_requeues_exactly_once_witness :
    (mplane_tick ⟨true, 99, true⟩
        { init_dstate with fd_open := true, num_buffers := 4 }).2.filter isQbufOp
      = [DevOp.qbuf 99] ∧
    (mplane_tick ⟨true, 99, false⟩
        { init_dstate with fd_open := true, num_buffers := 4 }).1
      = (mplane_tick ⟨true, 99, true⟩
        { init_dstate with fd_open := true, num_buffers := 4 }).1 := by
  have h := tick_requeues_exactly_once ⟨true, 99, true⟩
    { init_dstate with fd_open := true, num_buffers := 4 } rfl rfl rfl
  exact ⟨h.1, h.2⟩

/-- C9: `reconfigure` with the device path equal to the current session's
path and requested dimensions equal to the current ones is a pure no-op:
the session state is returned unchanged and no device operation is
issued. -/
theorem update_same_params_noop (env : Env) (s : DState) (dev res : String)
    (hdev : (if dev = "" then "/dev/video11" else dev) = s.device_path)
    (hres : parse_res_update res s.width s.height = (s.width, s.height)) :
    mplane_update env s dev res = (s, []) := by
  unfold mplane_update
  rw [hres, hdev]
  simp

/-- C9 witness: current session at `/dev/video11`, 640x480; settings give
the default path and the same resolution. -/
theorem update_same_params_noop_witness :
    mplane_update
        { open_ok := false, alsa_open_ok := false, alsa_params_ok := false,
          fmt_width := 0, fmt_height := 0, fmt_num_planes := 0,
          fmt_y_bpl := 0, fmt_uv_bpl := 0, reqbufs_ok := false, req_count := 0,
          querybuf_ok := fun _ => false, plane_count := fun _ => 0,
          mmap_result := fun _ _ => 0, mmap_len := fun _ _ => 0,
          qbuf_ok := fun _ => false, streamon_ok := false,
          rgb_ok := false, tex_ok := false }
        init_dstate "" "640x480"
      = (init_dstate, []) := by
  exact update_same_params_noop _ init_dstate "" "640x480" rfl rfl

/-- C3 (code bug): `start_device` does *not* release everything it
acquired when a step fails. When `snd_pcm_set_params` fails
(plugin-main.cpp:289-293) it returns failure with the video fd still
open and the ALSA handle still open — no `close` and no `snd_pcm_close`
appear in the trace; and when `VIDIOC_REQBUFS` fails after a successful
audio setup (plugin-main.cpp:332-337) it closes the fd but leaves the
ALSA handle open and the audio thread running. -/
theorem start_failure_leaks_resources :
    (start_device { env_base with alsa_params_ok := false } init_dstate).1 = false ∧
    (start_device { env_base with alsa_params_ok := false } init_dstate).2.1.fd_open
      = true ∧
    (start_device { env_base with alsa_params_ok := false } init_dstate).2.1.pcm_open
      = true ∧
    DevOp.closeDev ∉
      (start_device { env_base with alsa_params_ok := false } init_dstate).2.2 ∧
    DevOp.alsaClose ∉
      (start_device { env_base with alsa_params_ok := false } init_dstate).2.2 ∧
    (start_device { env_base with reqbufs_ok := false } init_dstate).1 = false ∧
    (start_device { env_base with reqbufs_ok := false } init_dstate).2.1.pcm_open
      = true ∧
    (start_device { env_base with reqbufs_ok := false } init_dstate).2.1.audio_running
      = true ∧
    DevOp.alsaClose ∉
      (start_device { env_base with reqbufs_ok := false } init_dstate).2.2 := by
  refine ⟨rfl, rfl, rfl, by decide, by decide, rfl, rfl, rfl, by decide⟩

/-- C7 (code bug): `audio_start_ts` and `audio_frame_count` are
function-`static` (plugin-main.cpp:249-250), so they survive a session
stop/restart. First session: one read of 1024 frames at clock 100 emits
timestamp 100. A second session whose first read happens at clock 999
should, per the claim, establish its own start time and emit 999; the
code instead emits `100 + 1024*10⁹/48000 = 21333433`. -/
theorem audio_timestamp_static_leak :
    (audio_run ⟨0, 0⟩ [(100, 1024)]).1 = [100] ∧
    (audio_run (audio_run ⟨0, 0⟩ [(100, 1024)]).2 [(999, 512)]).1 = [21333433] ∧
    (21333433 : Nat) ≠ 999 := by
  refine ⟨rfl, rfl, by decide⟩

theorem mem_drop_one_range8 (p : Nat) :
    p ∈ (List.range VIDEO_MAX_PLANES).drop 1 ↔ 1 ≤ p ∧ p < VIDEO_MAX_PLANES := by
  have h : (List.range VIDEO_MAX_PLANES).drop 1 = [1, 2, 3, 4, 5, 6, 7] := rfl
  rw [h]
  simp only [List.mem_cons, List.not_mem_nil, or_false, VIDEO_MAX_PLANES]
  omega

/-- Exactly which `(addr, len)` pairs one buffer slot contributes to the
release: its plane-0 pair when non-null with positive length, and the
pair of any plane `p ∈ [1, VIDEO_MAX_PLANES)` that is non-null with
positive length and pointer-unequal to the plane-0 base. -/
theorem mem_buf_unmaps_iff (b : MBuffer) (a l : Nat) :
    (a, l) ∈ buf_unmaps b ↔
      ((b.start.getD 0 0 = a ∧ b.length.getD 0 0 = l ∧ a ≠ 0 ∧ 0 < l) ∨
        ∃ p, 1 ≤ p ∧ p < VIDEO_MAX_PLANES ∧ b.start.getD p 0 = a ∧
          b.length.getD p 0 = l ∧ a ≠ 0 ∧ 0 < l ∧ a ≠ b.start.getD 0 0) := by
  unfold buf_unmaps
  simp only [List.mem_append, List.mem_filterMap, mem_drop_one_range8,
    Option.ite_none_right_eq_some, Option.some.injEq, Prod.mk.injEq]
  constructor
  · rintro (h | ⟨p, ⟨h1, h8⟩, ⟨hn0, hlp, hne⟩, ha, hl⟩)
    · by_cases hg : b.start.getD 0 0 ≠ 0 ∧ 0 < b.length.getD 0 0
      · rw [if_pos hg] at h
        simp only [List.mem_singleton, Prod.mk.injEq] at h
        exact Or.inl ⟨h.1.symm, h.2.symm, h.1 ▸ hg.1, h.2 ▸ hg.2⟩
      · rw [if_neg hg] at h
        exact absurd h (List.not_mem_nil _)
    · exact Or.inr ⟨p, h1, h8, ha, hl, ha ▸ hn0, hl ▸ hlp, ha ▸ hne⟩
  · rintro (⟨ha, hl, hne, hlp⟩ | ⟨p, h1, h8, ha, hl, hne, hlp, hnem0⟩)
    · left
      rw [if_pos ⟨ha ▸ hne, hl ▸ hlp⟩, ha, hl]
      exact List.mem_singleton.mpr rfl
    · exact Or.inr ⟨p, ⟨h1, h8⟩, ⟨ha ▸ hne, hl ▸ hlp, ha ▸ hnem0⟩, ha, hl⟩

/-- The plane-0 mapping is unmapped exactly once per slot. -/
theorem count_buf_unmaps_primary (b : MBuffer)
    (hm : b.start.getD 0 0 ≠ 0) (hl : 0 < b.length.getD 0 0) :
    (buf_unmaps b).count (b.start.getD 0 0, b.length.getD 0 0) = 1 := by
  unfold buf_unmaps
  rw [List.count_append, if_pos ⟨hm, hl⟩]
  have h2 : ∀ x ∈ (((List.range VIDEO_MAX_PLANES).drop 1).filterMap (fun p =>
      let sp := b.start.getD p 0
      let lp := b.length.getD p 0
      if sp ≠ 0 ∧ 0 < lp ∧ sp ≠ b.start.getD 0 0 then some (sp, lp) else none)),
      x ≠ (b.start.getD 0 0, b.length.getD 0 0) := by
    intro x hx
    obtain ⟨p, hp, hf⟩ := List.mem_filterMap.mp hx
    simp only [Option.ite_none_right_eq_some, Option.some.injEq] at hf
    intro hxeq
    exact hf.1.2.2 (congrArg Prod.fst (hf.2.trans hxeq))
  rw [List.count_eq_zero.mpr (fun hmem => (h2 _ hmem) rfl)]
  simp

/-- A successful single-plane fill with `y_bytes > 0` leaves a plane-1
entry that the release *does* unmap. -/
theorem single_plane_fill_unmapped (addr plen yb : Nat) (b' : MBuffer)
    (h : single_plane_fill addr plen yb = Except.ok b')
    (ha : addr ≠ 0) (hy : 0 < yb) :
    (addr + yb, plen - yb) ∈ buf_unmaps b' := by
  unfold single_plane_fill at h
  by_cases hle : plen ≤ yb
  · rw [if_pos hle] at h
    exact Except.noConfusion h
  · rw [if_neg hle] at h
    have hb := Except.ok.inj h
    subst hb
    refine (mem_buf_unmaps_iff _ _ _).mpr
      (Or.inr ⟨1, le_refl 1, by simp [VIDEO_MAX_PLANES], rfl, rfl, by omega, by omega, ?_⟩)
    show addr + yb ≠ addr
    omega

/-- C4 counterexample: a pool populated via the single-plane layout
(base 4096, length 6400, `y_bytes = luma_stride*height = 3840`) — the
release *does* issue an unmap for the derived chroma sub-pointer
`base + y_bytes = 7936`, contradicting the claim that it never does. -/
theorem release_unmaps_derived_chroma :
    single_plane_fill 4096 6400 3840 = Except.ok c4buf ∧
    c4buf.start.getD 0 0 = 4096 ∧
    c4buf.start.getD 1 0 = 4096 + 3840 ∧
    (4096 + 3840, 6400 - 3840) ∈ (free_mapped_buffers c4pool).2 := by
  refine ⟨rfl, rfl, rfl, by decide⟩

/-- C4 amended: the release unmaps each buffer's primary mapping exactly
once, and issues an unmap for a secondary plane pointer exactly when that
pointer is non-null with positive length and *pointer-unequal to the
primary mapping base* (not: "not an offset into the primary mapping");
consequently, for a buffer populated via the single-plane layout with
`0 < y_bytes`, the release *does* call unmap on the derived chroma
sub-pointer `base + y_bytes`. -/
theorem release_unmap_guard_amended (b : MBuffer) :
    (∀ a l : Nat, (a, l) ∈ buf_unmaps b ↔
      ((b.start.getD 0 0 = a ∧ b.length.getD 0 0 = l ∧ a ≠ 0 ∧ 0 < l) ∨
        ∃ p, 1 ≤ p ∧ p < VIDEO_MAX_PLANES ∧ b.start.getD p 0 = a ∧
          b.length.getD p 0 = l ∧ a ≠ 0 ∧ 0 < l ∧ a ≠ b.start.getD 0 0)) ∧
    (b.start.getD 0 0 ≠ 0 → 0 < b.length.getD 0 0 →
      (buf_unmaps b).count (b.start.getD 0 0, b.length.getD 0 0) = 1) ∧
    (∀ addr plen yb b', single_plane_fill addr plen yb = Except.ok b' →
      addr ≠ 0 → 0 < yb → (addr + yb, plen - yb) ∈ buf_unmaps b') ∧
    (∀ s : DState, ∀ bb ∈ s.buffers.take s.num_buffers,
      ∀ al ∈ buf_unmaps bb, al ∈ (free_mapped_buffers s).2) := by
  refine ⟨mem_buf_unmaps_iff b, count_buf_unmaps_primary b,
    fun addr plen yb b' h ha hy => single_plane_fill_unmapped addr plen yb b' h ha hy,
    ?_⟩
  intro s bb hbb al hal
  unfold free_mapped_buffers
  exact List.mem_flatMap.mpr ⟨bb, hbb, hal⟩

/-- C4 amended witness: the concrete single-plane buffer `c4buf`. -/
theorem release_unmap_guard_amended_witness :
    (4096 + 3840, 6400 - 3840) ∈ buf_unmaps c4buf ∧
    (buf_unmaps c4buf).count (c4buf.start.getD 0 0, c4buf.length.getD 0 0) = 1 := by
  have h := release_unmap_guard_amended c4buf
  exact ⟨h.2.2.1 4096 6400 3840 c4buf rfl (by decide) (by decide),
    h.2.1 (by decide) (by decide)⟩

theorem buf_unmaps_primary_only (addr len : Nat) (ha : addr ≠ 0) (hl : 0 < len) :
    buf_unmaps (set_plane zeroBuf 0 addr len) = [(addr, len)] := by
  show (if addr ≠ 0 ∧ 0 < len then [(addr, len)] else []) ++ [] = [(addr, len)]
  rw [if_pos ⟨ha, hl⟩, List.append_nil]

theorem flatMap_buf_unmaps_replicate_zeroBuf (n : Nat) :
    (List.replicate n zeroBuf).flatMap buf_unmaps = [] := by
  induction n with
  | zero => rfl
  | succ m ih =>
    rw [List.replicate_succ, List.flatMap_cons, ih]
    rfl

theorem alloc_step_single_fail (env : Env) (s : DState) (ops : List DevOp)
    (h5 : env.querybuf_ok 0 = true) (h6 : env.plane_count 0 ≤ 1)
    (h7 : env.mmap_result 0 0 ≠ 0)
    (h9 : env.mmap_len 0 0 ≤ s.y_stride * s.height) :
    alloc_step env (s, ops) 0 = Except.error (fail_cleanup
      (set_buf s 0 (set_plane zeroBuf 0 (env.mmap_result 0 0) (env.mmap_len 0 0)))
      (ops ++ [DevOp.querybuf 0] ++ [DevOp.mmapOp 0 0 (env.mmap_result 0 0) (env.mmap_len 0 0)])) := by
  have hpc : ¬ 2 ≤ (if env.plane_count 0 = 0 then 1 else env.plane_count 0) := by
    split <;> omega
  unfold alloc_step
  simp only [h5, if_true, ite_true, not_true, Bool.true_eq_false, if_false, ite_false,
    Bool.not_eq_true, not_false_iff]
  rw [if_neg hpc, if_neg (by simpa using h7)]
  unfold single_plane_fill
  rw [if_pos h9]

theorem start_single_plane_fail (env : Env)
    (h1 : env.open_ok = true) (h2 : env.alsa_open_ok = false)
    (h3 : env.reqbufs_ok = true) (h4 : 1 ≤ env.req_count)
    (h5 : env.querybuf_ok 0 = true) (h6 : env.plane_count 0 ≤ 1)
    (h7 : env.mmap_result 0 0 ≠ 0) (h8 : 0 < env.mmap_len 0 0)
    (h9 : env.mmap_len 0 0 ≤
      (if 0 < env.fmt_y_bpl then env.fmt_y_bpl else env.fmt_width) * env.fmt_height) :
    (start_device env init_dstate).1 = false ∧
    (start_device env init_dstate).2.1.fd_open = false ∧
    liveMappings (start_device env init_dstate).2.2 = [] := by
  obtain ⟨k, hk⟩ : ∃ k, env.req_count = k + 1 := ⟨env.req_count - 1, by omega⟩
  have hfold : ∀ (s : DState) (ops : List DevOp),
      env.mmap_len 0 0 ≤ s.y_stride * s.height →
      (List.range (k + 1)).foldlM (alloc_step env) (s, ops)
        = Except.error (fail_cleanup
            (set_buf s 0 (set_plane zeroBuf 0 (env.mmap_result 0 0) (env.mmap_len 0 0)))
            (ops ++ [DevOp.querybuf 0]
              ++ [DevOp.mmapOp 0 0 (env.mmap_result 0 0) (env.mmap_len 0 0)])) := by
    intro s ops hsy
    rw [List.range_succ_eq_map, List.foldlM_cons,
      alloc_step_single_fail env s ops h5 h6 h7 hsy]
    rfl
  simp only [start_device, start_device_video, negotiate, zero_buffers, h1, h2, h3, hk,
    ite_true, ite_false, Bool.false_eq_true, Bool.not_eq_true, not_false_iff, not_true,
    Bool.true_eq_false, if_true, if_false, Nat.succ_ne_zero]
  rw [hfold _ _ (by simpa using h9)]
  refine ⟨rfl, rfl, ?_⟩
  have hfc2 : ∀ (s : DState) (ops : List DevOp),
      (fail_cleanup s ops).2
        = ops ++ ((s.buffers.take s.num_buffers).flatMap buf_unmaps).map
            (fun al => DevOp.munmapOp al.1 al.2) ++ [DevOp.closeDev] := by
    intro s ops
    rfl
  have hbuf : ∀ (s : DState),
      s.buffers = (List.replicate BUFFER_COUNT zeroBuf).set 0
        (set_plane zeroBuf 0 (env.mmap_result 0 0) (env.mmap_len 0 0)) →
      s.num_buffers = k + 1 →
      (s.buffers.take s.num_buffers).flatMap buf_unmaps
        = [(env.mmap_result 0 0, env.mmap_len 0 0)] := by
    intro s hb hn
    rw [hb, hn]
    have hsk : ((List.replicate BUFFER_COUNT zeroBuf).set 0
        (set_plane zeroBuf 0 (env.mmap_result 0 0) (env.mmap_len 0 0)))
        = set_plane zeroBuf 0 (env.mmap_result 0 0) (env.mmap_len 0 0)
          :: List.replicate 3 zeroBuf := rfl
    rw [hsk, List.take_succ_cons, List.take_replicate, List.flatMap_cons,
      flatMap_buf_unmaps_replicate_zeroBuf, buf_unmaps_primary_only _ _ h7 h8,
      List.append_nil]
  dsimp only
  rw [hfc2, hbuf _ rfl rfl]
  simp [liveMappings, List.foldl_append, h7]

theorem alloc_step_single_ok (env : Env) (s : DState) (ops : List DevOp)
    (h5 : env.querybuf_ok 0 = true) (h6 : env.plane_count 0 ≤ 1)
    (h7 : env.mmap_result 0 0 ≠ 0)
    (hy : s.y_stride * s.height < env.mmap_len 0 0)
    (h10 : env.qbuf_ok 0 = true) :
    alloc_step env (s, ops) 0 = Except.ok
      (set_buf s 0 (set_plane (set_plane zeroBuf 0 (env.mmap_result 0 0) (env.mmap_len 0 0))
          1 (env.mmap_result 0 0 + s.y_stride * s.height)
          (env.mmap_len 0 0 - s.y_stride * s.height)),
        ops ++ [DevOp.querybuf 0] ++ [DevOp.mmapOp 0 0 (env.mmap_result 0 0) (env.mmap_len 0 0)]
          ++ [DevOp.qbuf 0]) := by
  have hpc : ¬ 2 ≤ (if env.plane_count 0 = 0 then 1 else env.plane_count 0) := by
    split <;> omega
  unfold alloc_step
  simp only [h5, if_true, ite_true, not_true, Bool.true_eq_false, if_false, ite_false,
    Bool.not_eq_true, not_false_iff]
  rw [if_neg hpc, if_neg (by simpa using h7)]
  unfold single_plane_fill
  rw [if_neg (by omega)]
  unfold qbuf_step
  dsimp only
  rw [if_pos (by simpa using h10)]

theorem start_single_plane_success (env : Env)
    (h1 : env.open_ok = true) (h2 : env.alsa_open_ok = false)
    (h3 : env.reqbufs_ok = true) (h4 : env.req_count = 1)
    (h5 : env.querybuf_ok 0 = true) (h6 : env.plane_count 0 ≤ 1)
    (h7 : env.mmap_result 0 0 ≠ 0)
    (h9 : (if 0 < env.fmt_y_bpl then env.fmt_y_bpl else env.fmt_width) * env.fmt_height
      < env.mmap_len 0 0)
    (h10 : env.qbuf_ok 0 = true) (h11 : env.streamon_ok = true)
    (h12 : env.rgb_ok = true) (h13 : env.tex_ok = true) :
    (start_device env init_dstate).1 = true ∧
    ((start_device env init_dstate).2.1.buffers.getD 0 zeroBuf).start.getD 1 0
      = env.mmap_result 0 0
        + (if 0 < env.fmt_y_bpl then env.fmt_y_bpl else env.fmt_width) * env.fmt_height ∧
    ((start_device env init_dstate).2.1.buffers.getD 0 zeroBuf).length.getD 1 0
      = env.mmap_len 0 0
        - (if 0 < env.fmt_y_bpl then env.fmt_y_bpl else env.fmt_width) * env.fmt_height := by
  simp only [start_device, start_device_video, negotiate, zero_buffers, h1, h2, h3, h4,
    ite_true, ite_false, Bool.false_eq_true, Bool.not_eq_true, not_false_iff, not_true,
    Bool.true_eq_false, if_true, if_false, Nat.succ_ne_zero]
  rw [show (List.range 1) = [0] from rfl, List.foldlM_cons,
    alloc_step_single_ok env _ _ h5 h6 h7 (by simpa using h9) h10]
  simp only [List.foldlM_nil, bind_pure]
  rw [if_neg (by simp [h11])]
  unfold alloc_rgb_and_texture
  simp only [h12, h13, ite_true, ite_false, not_true, Bool.true_eq_false, if_false,
    Bool.not_eq_true, not_false_iff, if_true]
  exact ⟨trivial, rfl, rfl⟩

/-- C5: in the single-plane layout, for a mapped buffer of length `L` and
`Y = luma_stride * height`: if `Y < L` the stored chroma pointer is
`base + Y` with length `L - Y`; if `Y >= L` the allocation fails, the
whole `start` returns failure with the fd closed, and no memory mapping
(including the one just created for this buffer) is left mapped. -/
theorem single_plane_chroma_split :
    (∀ addr plen yb : Nat, addr ≠ 0 →
      (yb < plen → ∃ b, single_plane_fill addr plen yb = Except.ok b ∧
        b.start.getD 0 0 = addr ∧ b.length.getD 0 0 = plen ∧
        b.start.getD 1 0 = addr + yb ∧ b.length.getD 1 0 = plen - yb) ∧
      (plen ≤ yb → ∃ b, single_plane_fill addr plen yb = Except.error b ∧
        b.start.getD 0 0 = addr ∧ b.length.getD 0 0 = plen)) ∧
    (∀ env : Env, env.open_ok = true → env.alsa_open_ok = false →
      env.reqbufs_ok = true → 1 ≤ env.req_count →
      env.querybuf_ok 0 = true → env.plane_count 0 ≤ 1 →
      env.mmap_result 0 0 ≠ 0 → 0 < env.mmap_len 0 0 →
      env.mmap_len 0 0 ≤
        (if 0 < env.fmt_y_bpl then env.fmt_y_bpl else env.fmt_width) * env.fmt_height →
      (start_device env init_dstate).1 = false ∧
      (start_device env init_dstate).2.1.fd_open = false ∧
      liveMappings (start_device env init_dstate).2.2 = []) ∧
    (∀ env : Env, env.open_ok = true → env.alsa_open_ok = false →
      env.reqbufs_ok = true → env.req_count = 1 →
      env.querybuf_ok 0 = true → env.plane_count 0 ≤ 1 →
      env.mmap_result 0 0 ≠ 0 →
      (if 0 < env.fmt_y_bpl then env.fmt_y_bpl else env.fmt_width) * env.fmt_height
        < env.mmap_len 0 0 →
      env.qbuf_ok 0 = true → env.streamon_ok = true →
      env.rgb_ok = true → env.tex_ok = true →
      (start_device env init_dstate).1 = true ∧
      ((start_device env init_dstate).2.1.buffers.getD 0 zeroBuf).start.getD 1 0
        = env.mmap_result 0 0
          + (if 0 < env.fmt_y_bpl then env.fmt_y_bpl else env.fmt_width) * env.fmt_height ∧
      ((start_device env init_dstate).2.1.buffers.getD 0 zeroBuf).length.getD 1 0
        = env.mmap_len 0 0
          - (if 0 < env.fmt_y_bpl then env.fmt_y_bpl else env.fmt_width) * env.fmt_height) := by
  refine ⟨?_, start_single_plane_fail, start_single_plane_success⟩
  intro addr plen yb ha
  constructor
  · intro hlt
    refine ⟨set_plane (set_plane zeroBuf 0 addr plen) 1 (addr + yb) (plen - yb),
      ?_, rfl, rfl, rfl, rfl⟩
    unfold single_plane_fill
    rw [if_neg (by omega)]
  · intro hle
    refine ⟨set_plane zeroBuf 0 addr plen, ?_, rfl, rfl⟩
    unfold single_plane_fill
    rw [if_pos hle]

/-- C5 witness: the concrete single-plane environments `env_single`
(`Y = 100 = L`, so the split fails on buffer 0) and `env_single_ok`
(`Y = 100 < L = 150`, chroma pointer `5100`, chroma length `50`). -/
theorem single_plane_chroma_split_witness :
    (start_device env_single init_dstate).1 = false ∧
    (start_device env_single init_dstate).2.1.fd_open = false ∧
    liveMappings (start_device env_single init_dstate).2.2 = [] ∧
    (start_device env_single_ok init_dstate).1 = true ∧
    ((start_device env_single_ok init_dstate).2.1.buffers.getD 0 zeroBuf).start.getD 1 0
      = 5100 ∧
    ((start_device env_single_ok init_dstate).2.1.buffers.getD 0 zeroBuf).length.getD 1 0
      = 50 := by
  have hf := single_plane_chroma_split.2.1 env_single rfl rfl rfl (by decide) rfl
    (by decide) (by decide) (by decide) (by decide)
  have hs := single_plane_chroma_split.2.2 env_single_ok rfl rfl rfl rfl rfl
    (by decide) (by decide) (by decide) rfl rfl rfl rfl
  exact ⟨hf.1, hf.2.1, hf.2.2, hs.1, by simpa using hs.2.1, by simpa using hs.2.2⟩

end Axon
